import Mathlib

/-!
Verification development for the FSAL helper and MDCACHE stackable cache
layer of the nfs-ganesha object-handle core.

The C sources are shallowly embedded: each C function becomes a pure Lean
function over explicit state and an explicit record of backend-oracle
responses (the sub-FSAL / backend driver is outside this layer, so its
per-call results are inputs).  Statuses, error enumerations and bitmask
arithmetic follow the source; machine integers are modelled as `Nat`/`Int`
with explicit reductions modulo `2 ^ 64` where C casts occur.
-/

/-- FSAL major error kinds (`fsal_errors_t`).  Constructors are exactly the
kinds handled by `cache_inode_errors_convert` in `fsal_helper.c`, which the
source treats as the complete enumeration (its `switch` has no default). -/
inductive fsal_errors where
  | ERR_FSAL_NO_ERROR
  | ERR_FSAL_PERM
  | ERR_FSAL_NOENT
  | ERR_FSAL_IO
  | ERR_FSAL_NXIO
  | ERR_FSAL_INVAL
  | ERR_FSAL_FBIG
  | ERR_FSAL_NOSPC
  | ERR_FSAL_ACCESS
  | ERR_FSAL_FAULT
  | ERR_FSAL_EXIST
  | ERR_FSAL_XDEV
  | ERR_FSAL_NOTDIR
  | ERR_FSAL_ISDIR
  | ERR_FSAL_ROFS
  | ERR_FSAL_NOTEMPTY
  | ERR_FSAL_NAMETOOLONG
  | ERR_FSAL_NOMEM
  | ERR_FSAL_DQUOT
  | ERR_FSAL_SEC
  | ERR_FSAL_NOTSUPP
  | ERR_FSAL_OVERFLOW
  | ERR_FSAL_STALE
  | ERR_FSAL_FHEXPIRED
  | ERR_FSAL_SYMLINK
  | ERR_FSAL_ATTRNOTSUPP
  | ERR_FSAL_UNION_NOTSUPP
  | ERR_FSAL_BADHANDLE
  | ERR_FSAL_BADCOOKIE
  | ERR_FSAL_BADTYPE
  | ERR_FSAL_NO_DATA
  | ERR_FSAL_NO_QUOTA
  | ERR_FSAL_DELAY
  | ERR_FSAL_BAD_RANGE
  | ERR_FSAL_NOT_INIT
  | ERR_FSAL_ALREADY_INIT
  | ERR_FSAL_BAD_INIT
  | ERR_FSAL_MLINK
  | ERR_FSAL_TIMEOUT
  | ERR_FSAL_SERVERFAULT
  | ERR_FSAL_TOOSMALL
  | ERR_FSAL_SHARE_DENIED
  | ERR_FSAL_LOCKED
  | ERR_FSAL_IN_GRACE
  | ERR_FSAL_CROSS_JUNCTION
  | ERR_FSAL_FILE_OPEN
  | ERR_FSAL_NOT_OPENED
  | ERR_FSAL_BLOCKED
  | ERR_FSAL_INTERRUPT
  | ERR_FSAL_DEADLOCK
  | ERR_FSAL_NO_ACE
deriving DecidableEq, Repr

/-- `fsal_status_t`: a major error kind plus an errno-style minor detail. -/
structure fsal_status where
  major : fsal_errors
  minor : Nat
deriving DecidableEq, Repr

/-- `fsalstat(major, minor)` constructor from `fsal_types.h`. -/
def fsalstat (major : fsal_errors) (minor : Nat) : fsal_status :=
  { major := major, minor := minor }

/-- `FSAL_IS_ERROR(status)` macro: major kind differs from `ERR_FSAL_NO_ERROR`. -/
def FSAL_IS_ERROR (s : fsal_status) : Bool :=
  s.major ≠ fsal_errors.ERR_FSAL_NO_ERROR

/-- Caller-facing error kinds (`cache_inode_status_t`), exactly the values
produced by `cache_inode_errors_convert`. -/
inductive cache_inode_status where
  | CACHE_INODE_SUCCESS
  | CACHE_INODE_NOT_FOUND
  | CACHE_INODE_ENTRY_EXISTS
  | CACHE_INODE_FSAL_EACCESS
  | CACHE_INODE_FSAL_EPERM
  | CACHE_INODE_NO_SPACE_LEFT
  | CACHE_INODE_DIR_NOT_EMPTY
  | CACHE_INODE_READ_ONLY_FS
  | CACHE_INODE_NOT_A_DIRECTORY
  | CACHE_INODE_IO_ERROR
  | CACHE_INODE_ESTALE
  | CACHE_INODE_INVALID_ARGUMENT
  | CACHE_INODE_QUOTA_EXCEEDED
  | CACHE_INODE_NO_DATA
  | CACHE_INODE_FSAL_ERR_SEC
  | CACHE_INODE_NOT_SUPPORTED
  | CACHE_INODE_UNION_NOTSUPP
  | CACHE_INODE_DELAY
  | CACHE_INODE_NAME_TOO_LONG
  | CACHE_INODE_MALLOC_ERROR
  | CACHE_INODE_BAD_COOKIE
  | CACHE_INODE_FILE_OPEN
  | CACHE_INODE_FSAL_ERROR
  | CACHE_INODE_IS_A_DIRECTORY
  | CACHE_INODE_BAD_TYPE
  | CACHE_INODE_FILE_BIG
  | CACHE_INODE_FSAL_XDEV
  | CACHE_INODE_FSAL_MLINK
  | CACHE_INODE_SERVERFAULT
  | CACHE_INODE_TOOSMALL
  | CACHE_INODE_SHARE_DENIED
  | CACHE_INODE_LOCKED
  | CACHE_INODE_IN_GRACE
  | CACHE_INODE_CROSS_JUNCTION
  | CACHE_INODE_BADHANDLE
  | CACHE_INODE_BAD_RANGE
deriving DecidableEq, Repr

/-- `cache_inode_errors_convert` from `fsal_helper.c` (lines 1642-1789):
the total translation from FSAL error kinds to cache-inode error kinds. -/
def cache_inode_errors_convert (e : fsal_errors) : cache_inode_status :=
  match e with
  | fsal_errors.ERR_FSAL_NO_ERROR => cache_inode_status.CACHE_INODE_SUCCESS
  | fsal_errors.ERR_FSAL_NOENT => cache_inode_status.CACHE_INODE_NOT_FOUND
  | fsal_errors.ERR_FSAL_EXIST => cache_inode_status.CACHE_INODE_ENTRY_EXISTS
  | fsal_errors.ERR_FSAL_ACCESS => cache_inode_status.CACHE_INODE_FSAL_EACCESS
  | fsal_errors.ERR_FSAL_PERM => cache_inode_status.CACHE_INODE_FSAL_EPERM
  | fsal_errors.ERR_FSAL_NOSPC => cache_inode_status.CACHE_INODE_NO_SPACE_LEFT
  | fsal_errors.ERR_FSAL_NOTEMPTY => cache_inode_status.CACHE_INODE_DIR_NOT_EMPTY
  | fsal_errors.ERR_FSAL_ROFS => cache_inode_status.CACHE_INODE_READ_ONLY_FS
  | fsal_errors.ERR_FSAL_NOTDIR => cache_inode_status.CACHE_INODE_NOT_A_DIRECTORY
  | fsal_errors.ERR_FSAL_IO => cache_inode_status.CACHE_INODE_IO_ERROR
  | fsal_errors.ERR_FSAL_NXIO => cache_inode_status.CACHE_INODE_IO_ERROR
  | fsal_errors.ERR_FSAL_STALE => cache_inode_status.CACHE_INODE_ESTALE
  | fsal_errors.ERR_FSAL_FHEXPIRED => cache_inode_status.CACHE_INODE_ESTALE
  | fsal_errors.ERR_FSAL_INVAL => cache_inode_status.CACHE_INODE_INVALID_ARGUMENT
  | fsal_errors.ERR_FSAL_OVERFLOW => cache_inode_status.CACHE_INODE_INVALID_ARGUMENT
  | fsal_errors.ERR_FSAL_DQUOT => cache_inode_status.CACHE_INODE_QUOTA_EXCEEDED
  | fsal_errors.ERR_FSAL_NO_QUOTA => cache_inode_status.CACHE_INODE_QUOTA_EXCEEDED
  | fsal_errors.ERR_FSAL_NO_DATA => cache_inode_status.CACHE_INODE_NO_DATA
  | fsal_errors.ERR_FSAL_SEC => cache_inode_status.CACHE_INODE_FSAL_ERR_SEC
  | fsal_errors.ERR_FSAL_NOTSUPP => cache_inode_status.CACHE_INODE_NOT_SUPPORTED
  | fsal_errors.ERR_FSAL_ATTRNOTSUPP => cache_inode_status.CACHE_INODE_NOT_SUPPORTED
  | fsal_errors.ERR_FSAL_UNION_NOTSUPP => cache_inode_status.CACHE_INODE_UNION_NOTSUPP
  | fsal_errors.ERR_FSAL_DELAY => cache_inode_status.CACHE_INODE_DELAY
  | fsal_errors.ERR_FSAL_NAMETOOLONG => cache_inode_status.CACHE_INODE_NAME_TOO_LONG
  | fsal_errors.ERR_FSAL_NOMEM => cache_inode_status.CACHE_INODE_MALLOC_ERROR
  | fsal_errors.ERR_FSAL_BADCOOKIE => cache_inode_status.CACHE_INODE_BAD_COOKIE
  | fsal_errors.ERR_FSAL_FILE_OPEN => cache_inode_status.CACHE_INODE_FILE_OPEN
  | fsal_errors.ERR_FSAL_NOT_OPENED => cache_inode_status.CACHE_INODE_FSAL_ERROR
  | fsal_errors.ERR_FSAL_ISDIR => cache_inode_status.CACHE_INODE_IS_A_DIRECTORY
  | fsal_errors.ERR_FSAL_SYMLINK => cache_inode_status.CACHE_INODE_BAD_TYPE
  | fsal_errors.ERR_FSAL_BADTYPE => cache_inode_status.CACHE_INODE_BAD_TYPE
  | fsal_errors.ERR_FSAL_FBIG => cache_inode_status.CACHE_INODE_FILE_BIG
  | fsal_errors.ERR_FSAL_XDEV => cache_inode_status.CACHE_INODE_FSAL_XDEV
  | fsal_errors.ERR_FSAL_MLINK => cache_inode_status.CACHE_INODE_FSAL_MLINK
  | fsal_errors.ERR_FSAL_FAULT => cache_inode_status.CACHE_INODE_SERVERFAULT
  | fsal_errors.ERR_FSAL_SERVERFAULT => cache_inode_status.CACHE_INODE_SERVERFAULT
  | fsal_errors.ERR_FSAL_DEADLOCK => cache_inode_status.CACHE_INODE_SERVERFAULT
  | fsal_errors.ERR_FSAL_TOOSMALL => cache_inode_status.CACHE_INODE_TOOSMALL
  | fsal_errors.ERR_FSAL_SHARE_DENIED => cache_inode_status.CACHE_INODE_SHARE_DENIED
  | fsal_errors.ERR_FSAL_LOCKED => cache_inode_status.CACHE_INODE_LOCKED
  | fsal_errors.ERR_FSAL_IN_GRACE => cache_inode_status.CACHE_INODE_IN_GRACE
  | fsal_errors.ERR_FSAL_CROSS_JUNCTION => cache_inode_status.CACHE_INODE_CROSS_JUNCTION
  | fsal_errors.ERR_FSAL_BADHANDLE => cache_inode_status.CACHE_INODE_BADHANDLE
  | fsal_errors.ERR_FSAL_BAD_RANGE => cache_inode_status.CACHE_INODE_BAD_RANGE
  | fsal_errors.ERR_FSAL_BLOCKED => cache_inode_status.CACHE_INODE_FSAL_ERROR
  | fsal_errors.ERR_FSAL_INTERRUPT => cache_inode_status.CACHE_INODE_FSAL_ERROR
  | fsal_errors.ERR_FSAL_NOT_INIT => cache_inode_status.CACHE_INODE_FSAL_ERROR
  | fsal_errors.ERR_FSAL_ALREADY_INIT => cache_inode_status.CACHE_INODE_FSAL_ERROR
  | fsal_errors.ERR_FSAL_BAD_INIT => cache_inode_status.CACHE_INODE_FSAL_ERROR
  | fsal_errors.ERR_FSAL_TIMEOUT => cache_inode_status.CACHE_INODE_FSAL_ERROR
  | fsal_errors.ERR_FSAL_NO_ACE => cache_inode_status.CACHE_INODE_FSAL_ERROR

/-- C8: the error-translation function is total: being a Lean function over
the closed enumeration of backend error kinds, every input has exactly one
image; stale-handle and expired-handle both map to the stale kind, delay maps
to the retryable-delay kind, and every internal-only kind (including
not-opened) maps to the generic internal-fault kind rather than being
dropped. -/
theorem C8_errors_convert_total_and_mappings :
    (∀ e : fsal_errors, ∃ c : cache_inode_status,
        cache_inode_errors_convert e = c) ∧
    cache_inode_errors_convert fsal_errors.ERR_FSAL_STALE =
      cache_inode_status.CACHE_INODE_ESTALE ∧
    cache_inode_errors_convert fsal_errors.ERR_FSAL_FHEXPIRED =
      cache_inode_status.CACHE_INODE_ESTALE ∧
    cache_inode_errors_convert fsal_errors.ERR_FSAL_DELAY =
      cache_inode_status.CACHE_INODE_DELAY ∧
    cache_inode_errors_convert fsal_errors.ERR_FSAL_BLOCKED =
      cache_inode_status.CACHE_INODE_FSAL_ERROR ∧
    cache_inode_errors_convert fsal_errors.ERR_FSAL_INTERRUPT =
      cache_inode_status.CACHE_INODE_FSAL_ERROR ∧
    cache_inode_errors_convert fsal_errors.ERR_FSAL_NOT_INIT =
      cache_inode_status.CACHE_INODE_FSAL_ERROR ∧
    cache_inode_errors_convert fsal_errors.ERR_FSAL_ALREADY_INIT =
      cache_inode_status.CACHE_INODE_FSAL_ERROR ∧
    cache_inode_errors_convert fsal_errors.ERR_FSAL_BAD_INIT =
      cache_inode_status.CACHE_INODE_FSAL_ERROR ∧
    cache_inode_errors_convert fsal_errors.ERR_FSAL_TIMEOUT =
      cache_inode_status.CACHE_INODE_FSAL_ERROR ∧
    cache_inode_errors_convert fsal_errors.ERR_FSAL_NO_ACE =
      cache_inode_status.CACHE_INODE_FSAL_ERROR ∧
    cache_inode_errors_convert fsal_errors.ERR_FSAL_NOT_OPENED =
      cache_inode_status.CACHE_INODE_FSAL_ERROR := by
  refine ⟨fun e => ⟨cache_inode_errors_convert e, rfl⟩, ?_⟩
  repeat (first | constructor | rfl)

/-- `struct timeval` as produced by `gettimeofday`. -/
structure timeval_m where
  tv_sec : Int
  tv_usec : Int
deriving DecidableEq, Repr

/-- `struct timespec`. -/
structure timespec_m where
  tv_sec : Int
  tv_nsec : Int
deriving DecidableEq, Repr

/-- `mdc_set_time_current` from `mdcache_file.c`: the timestamp written from
the current time `t` (the `gettimeofday` result is an explicit input). -/
def mdc_set_time_current (t : timeval_m) : timespec_m :=
  { tv_sec := t.tv_sec, tv_nsec := 1000 * t.tv_usec }

/-- A metadata-cache entry (`mdcache_entry_t`): the KILLED flag plus the
cached access time that `mdcache_read`/`mdcache_read_plus` refresh. -/
structure mdcache_entry where
  killed : Bool
  atime : timespec_m
deriving DecidableEq, Repr

/-- Modelled from the spec: `mdcache_kill_entry` (declared in
`mdcache_lru.h`, body not under `src/`) transitions the entry to the
terminal KILLED state; killing twice is a no-op. -/
def mdcache_kill_entry (e : mdcache_entry) : mdcache_entry :=
  { e with killed := true }

/-- Modelled from the spec: `mdcache_lru_fds_available` (declared in
`mdcache_lru.h`, body not under `src/`) reports whether the global FD
budget admits another open: true exactly while the global open-FD counter
is below the configured ceiling. -/
def mdcache_lru_fds_available (open_fd_cnt fd_ceiling : Nat) : Bool :=
  open_fd_cnt < fd_ceiling

/-- Result of one mdcache entry operation: the returned status, the entry
state afterwards, and how many calls were forwarded to the sub-handle. -/
structure mdcache_result where
  status : fsal_status
  entry : mdcache_entry
  subcalls : Nat
deriving DecidableEq, Repr

/-- `mdcache_open` from `mdcache_file.c`: consult the FD budget; if
exhausted fail with `ERR_FSAL_DELAY` before contacting the sub-handle,
otherwise forward one open call (`sub_open` is its result) and kill the
entry if the sub-FSAL reports stale. -/
def mdcache_open (open_fd_cnt fd_ceiling : Nat) (e : mdcache_entry)
    (sub_open : fsal_status) : mdcache_result :=
  if ¬ mdcache_lru_fds_available open_fd_cnt fd_ceiling then
    { status := fsalstat fsal_errors.ERR_FSAL_DELAY 0, entry := e, subcalls := 0 }
  else
    let status := sub_open
    let e' := if FSAL_IS_ERROR status ∧ status.major = fsal_errors.ERR_FSAL_STALE
      then mdcache_kill_entry e else e
    { status := status, entry := e', subcalls := 1 }

/-- `mdcache_read` from `mdcache_file.c` (lines 161-182): forward one read
to the sub-handle (`sub_read` is its result); on success refresh the cached
atime to now, otherwise kill the entry when the status is `ERR_FSAL_DELAY`. -/
def mdcache_read (e : mdcache_entry) (sub_read : fsal_status)
    (now : timeval_m) : mdcache_result :=
  let status := sub_read
  if ¬ FSAL_IS_ERROR status then
    { status := status, entry := { e with atime := mdc_set_time_current now },
      subcalls := 1 }
  else if status.major = fsal_errors.ERR_FSAL_DELAY then
    { status := status, entry := mdcache_kill_entry e, subcalls := 1 }
  else
    { status := status, entry := e, subcalls := 1 }

/-- `mdcache_read_plus` from `mdcache_file.c` (lines 198-220): same status
handling as `mdcache_read`. -/
def mdcache_read_plus (e : mdcache_entry) (sub_read_plus : fsal_status)
    (now : timeval_m) : mdcache_result :=
  let status := sub_read_plus
  if ¬ FSAL_IS_ERROR status then
    { status := status, entry := { e with atime := mdc_set_time_current now },
      subcalls := 1 }
  else if status.major = fsal_errors.ERR_FSAL_DELAY then
    { status := status, entry := mdcache_kill_entry e, subcalls := 1 }
  else
    { status := status, entry := e, subcalls := 1 }

/-- `mdcache_write` from `mdcache_file.c` (lines 235-254): forward one write
to the sub-handle; kill the entry exactly when the returned status is
`ERR_FSAL_DELAY`. -/
def mdcache_write (e : mdcache_entry) (sub_write : fsal_status) :
    mdcache_result :=
  let status := sub_write
  if status.major = fsal_errors.ERR_FSAL_DELAY then
    { status := status, entry := mdcache_kill_entry e, subcalls := 1 }
  else
    { status := status, entry := e, subcalls := 1 }

/-- `mdcache_write_plus` from `mdcache_file.c` (lines 270-290): same status
handling as `mdcache_write`. -/
def mdcache_write_plus (e : mdcache_entry) (sub_write_plus : fsal_status) :
    mdcache_result :=
  let status := sub_write_plus
  if status.major = fsal_errors.ERR_FSAL_DELAY then
    { status := status, entry := mdcache_kill_entry e, subcalls := 1 }
  else
    { status := status, entry := e, subcalls := 1 }

/-- C1 (code bug): evaluating the four I/O entry operations on a live entry
shows that each of read, read_plus, write and write_plus kills the entry
when the sub-handle returns the delay status and leaves it alive when the
sub-handle returns the stale status — the exact opposite of the documented
staleness policy (stale kills, delay is transient), which `mdcache_open`
in the same file implements. -/
theorem C1_io_ops_kill_on_delay_not_on_stale :
    ((mdcache_read { killed := false, atime := { tv_sec := 0, tv_nsec := 0 } }
        (fsalstat fsal_errors.ERR_FSAL_DELAY 0)
        { tv_sec := 7, tv_usec := 0 }).entry.killed = true) ∧
    ((mdcache_read { killed := false, atime := { tv_sec := 0, tv_nsec := 0 } }
        (fsalstat fsal_errors.ERR_FSAL_STALE 0)
        { tv_sec := 7, tv_usec := 0 }).entry.killed = false) ∧
    ((mdcache_read_plus { killed := false, atime := { tv_sec := 0, tv_nsec := 0 } }
        (fsalstat fsal_errors.ERR_FSAL_DELAY 0)
        { tv_sec := 7, tv_usec := 0 }).entry.killed = true) ∧
    ((mdcache_read_plus { killed := false, atime := { tv_sec := 0, tv_nsec := 0 } }
        (fsalstat fsal_errors.ERR_FSAL_STALE 0)
        { tv_sec := 7, tv_usec := 0 }).entry.killed = false) ∧
    ((mdcache_write { killed := false, atime := { tv_sec := 0, tv_nsec := 0 } }
        (fsalstat fsal_errors.ERR_FSAL_DELAY 0)).entry.killed = true) ∧
    ((mdcache_write { killed := false, atime := { tv_sec := 0, tv_nsec := 0 } }
        (fsalstat fsal_errors.ERR_FSAL_STALE 0)).entry.killed = false) ∧
    ((mdcache_write_plus { killed := false, atime := { tv_sec := 0, tv_nsec := 0 } }
        (fsalstat fsal_errors.ERR_FSAL_DELAY 0)).entry.killed = true) ∧
    ((mdcache_write_plus { killed := false, atime := { tv_sec := 0, tv_nsec := 0 } }
        (fsalstat fsal_errors.ERR_FSAL_STALE 0)).entry.killed = false) := by
  decide

/-- C2: while the FD budget is exhausted (counter at or above the ceiling),
`mdcache_open` returns the retryable delay status and forwards nothing to
the sub-handle; while the budget is available it forwards exactly one open
call and returns the sub-handle's status. -/
theorem C2_mdcache_open_fd_budget (cnt ceiling : Nat) (e : mdcache_entry)
    (sub : fsal_status) :
    (ceiling ≤ cnt →
      mdcache_open cnt ceiling e sub =
        { status := fsalstat fsal_errors.ERR_FSAL_DELAY 0, entry := e,
          subcalls := 0 }) ∧
    (cnt < ceiling →
      (mdcache_open cnt ceiling e sub).subcalls = 1 ∧
      (mdcache_open cnt ceiling e sub).status = sub) := by
  constructor
  · intro h
    simp [mdcache_open, mdcache_lru_fds_available, Nat.not_lt.mpr h]
  · intro h
    simp [mdcache_open, mdcache_lru_fds_available, h]

/-- Witness for C2 at concrete inputs: counter 3 at ceiling 3 (exhausted)
and counter 2 below ceiling 3 (available). -/
theorem C2_mdcache_open_fd_budget_witness :
    (mdcache_open 3 3 { killed := false, atime := { tv_sec := 0, tv_nsec := 0 } }
        (fsalstat fsal_errors.ERR_FSAL_NO_ERROR 0) =
      { status := fsalstat fsal_errors.ERR_FSAL_DELAY 0,
        entry := { killed := false, atime := { tv_sec := 0, tv_nsec := 0 } },
        subcalls := 0 }) ∧
    ((mdcache_open 2 3 { killed := false, atime := { tv_sec := 0, tv_nsec := 0 } }
        (fsalstat fsal_errors.ERR_FSAL_NO_ERROR 0)).subcalls = 1 ∧
      (mdcache_open 2 3 { killed := false, atime := { tv_sec := 0, tv_nsec := 0 } }
        (fsalstat fsal_errors.ERR_FSAL_NO_ERROR 0)).status =
        fsalstat fsal_errors.ERR_FSAL_NO_ERROR 0) := by
  exact ⟨(C2_mdcache_open_fd_budget 3 3
      { killed := false, atime := { tv_sec := 0, tv_nsec := 0 } }
      (fsalstat fsal_errors.ERR_FSAL_NO_ERROR 0)).1 (by decide),
    (C2_mdcache_open_fd_budget 2 3
      { killed := false, atime := { tv_sec := 0, tv_nsec := 0 } }
      (fsalstat fsal_errors.ERR_FSAL_NO_ERROR 0)).2 (by decide)⟩

/-- `object_file_type_t`. -/
inductive object_file_type where
  | NO_FILE_TYPE
  | REGULAR_FILE
  | CHARACTER_FILE
  | BLOCK_FILE
  | SYMBOLIC_LINK
  | SOCKET_FILE
  | FIFO_FILE
  | DIRECTORY
  | EXTENDED_ATTR
deriving DecidableEq, Repr

/-- Caller credentials (`struct user_cred`): uid, primary gid and the
supplementary group array. -/
structure user_cred where
  caller_uid : Nat
  caller_gid : Nat
  caller_garray : List Nat
deriving DecidableEq, Repr

/-- `fsal_not_in_group_list` from `fsal_helper.c` (lines 71-95): true iff
`gid` is neither the caller's primary group nor in its group array. -/
def fsal_not_in_group_list (creds : user_cred) (gid : Nat) : Bool :=
  if creds.caller_gid = gid then false
  else if creds.caller_garray.contains gid then false
  else true

/-- The four NFSv4-ACE permission bits `fsal_check_setattr_perms` can
accumulate into its required-access bitmask. -/
structure ace4_mask where
  write_owner : Bool
  write_acl : Bool
  write_data : Bool
  write_attr : Bool
deriving DecidableEq, Repr

/-- The two shapes of `test_access` request issued by
`fsal_check_setattr_perms`: an ACE4 bitmask check against the object's ACL,
or the plain `FSAL_W_OK` mode-bit check. -/
inductive access_request where
  | ace4 (m : ace4_mask)
  | mode_w
deriving DecidableEq, Repr

/-- Cached attribute snapshot of an object (the fields of `struct attrlist`
the helper reads): owner, group, mode bits, change counter and whether an
ACL is attached. -/
structure attrs_m where
  owner : Nat
  group : Nat
  mode : Nat
  change : Nat
  acl : Bool
deriving DecidableEq, Repr

/-- A setattr request: the attribute mask (one flag per `ATTR_*` bit the
helper tests) plus the new owner/group/mode values. -/
structure setattr_request where
  set_owner : Bool
  set_group : Bool
  set_mode : Bool
  set_acl : Bool
  set_size : Bool
  set_space_reserved : Bool
  set_atime : Bool
  set_mtime : Bool
  set_ctime : Bool
  set_creation : Bool
  set_atime_server : Bool
  set_mtime_server : Bool
  owner : Nat
  group : Nat
  mode : Nat
deriving DecidableEq, Repr

/-- The bitmask `FSAL_ACE4_MASK_SET(FSAL_ACE_PERM_WRITE_DATA)` alone: the
only required-access mask the mode-bit fallback is allowed to satisfy. -/
def ace4_only_write_data : ace4_mask :=
  { write_owner := false, write_acl := false,
    write_data := true, write_attr := false }

/-- `fsal_check_setattr_perms` from `fsal_helper.c` (lines 108-270):
credential check for a setattr.  Root always passes; a new owner other than
the caller, or a new group the caller is not a member of, fail with
`ERR_FSAL_PERM`; the object's owner passes; otherwise a required ACE4
bitmask is accumulated (owner/group change: write-owner; mode/ACL:
write-acl; size: write-data; timestamps to server-"now" only: write-data;
any explicit timestamp: write-attr) and checked with `test_access` against
the ACL when one is present, else only the pure write-data mask is allowed
to fall back to the `FSAL_W_OK` mode-bit check. -/
def fsal_check_setattr_perms (creds : user_cred) (obj : attrs_m)
    (attr : setattr_request)
    (test_access : access_request → fsal_status) : fsal_status :=
  if creds.caller_uid = 0 then fsalstat fsal_errors.ERR_FSAL_NO_ERROR 0
  else
    let not_owner : Bool := creds.caller_uid != obj.owner
    if attr.set_owner ∧ attr.owner ≠ creds.caller_uid then
      fsalstat fsal_errors.ERR_FSAL_PERM 0
    else if attr.set_group ∧ fsal_not_in_group_list creds attr.group then
      fsalstat fsal_errors.ERR_FSAL_PERM 0
    else
      let ac0 : ace4_mask :=
        { write_owner := false, write_acl := false,
          write_data := false, write_attr := false }
      let ac1 := if attr.set_owner ∧ not_owner
        then { ac0 with write_owner := true } else ac0
      let ac2 := if attr.set_group ∧ not_owner
        then { ac1 with write_owner := true } else ac1
      if ¬ not_owner then fsalstat fsal_errors.ERR_FSAL_NO_ERROR 0
      else
        let ac3 := if attr.set_mode ∨ attr.set_acl
          then { ac2 with write_acl := true } else ac2
        let ac4 := if attr.set_size
          then { ac3 with write_data := true } else ac3
        let ac5 :=
          if (attr.set_mtime_server ∨ attr.set_atime_server) ∧
              ¬ attr.set_mtime ∧ ¬ attr.set_atime then
            { ac4 with write_data := true }
          else if attr.set_mtime_server ∨ attr.set_atime_server ∨
              attr.set_mtime ∨ attr.set_atime then
            { ac4 with write_attr := true }
          else ac4
        if obj.acl then test_access (access_request.ace4 ac5)
        else if ac5 ≠ ace4_only_write_data then
          fsalstat fsal_errors.ERR_FSAL_PERM 0
        else test_access access_request.mode_w

/-- C3: for a non-root caller who is not the owner of an object carrying no
ACL, a setattr touching only the atime/mtime-to-server-"now" attributes
passes the permission check whenever the mode-bit write check grants
access, while a setattr carrying explicit atime/mtime values fails with
`ERR_FSAL_PERM` for the same caller. -/
theorem C3_setattr_time_permission (creds : user_cred) (obj : attrs_m)
    (test_access : access_request → fsal_status)
    (attrA attrB : setattr_request)
    (hroot : creds.caller_uid ≠ 0) (hown : creds.caller_uid ≠ obj.owner)
    (hacl : obj.acl = false)
    (hw : test_access access_request.mode_w =
      fsalstat fsal_errors.ERR_FSAL_NO_ERROR 0)
    (hA : attrA.set_owner = false ∧ attrA.set_group = false ∧
      attrA.set_mode = false ∧ attrA.set_acl = false ∧
      attrA.set_size = false ∧ attrA.set_atime = false ∧
      attrA.set_mtime = false ∧
      (attrA.set_atime_server = true ∨ attrA.set_mtime_server = true))
    (hB : attrB.set_owner = false ∧ attrB.set_group = false ∧
      attrB.set_mode = false ∧ attrB.set_acl = false ∧
      attrB.set_size = false ∧
      (attrB.set_atime = true ∨ attrB.set_mtime = true)) :
    fsal_check_setattr_perms creds obj attrA test_access =
      fsalstat fsal_errors.ERR_FSAL_NO_ERROR 0 ∧
    fsal_check_setattr_perms creds obj attrB test_access =
      fsalstat fsal_errors.ERR_FSAL_PERM 0 := by
  obtain ⟨a1, a2, a3, a4, a5, a6, a7, a8⟩ := hA
  obtain ⟨b1, b2, b3, b4, b5, b6⟩ := hB
  have hno : (creds.caller_uid != obj.owner) = true := by
    simp [bne_iff_ne, hown]
  constructor
  · rcases a8 with h8 | h8 <;>
      simp [fsal_check_setattr_perms, hroot, hno, hacl, a1, a2, a3, a4, a5,
        a6, a7, h8, hw, ace4_only_write_data]
  · rcases b6 with h6 | h6 <;>
      simp [fsal_check_setattr_perms, hroot, hno, hacl, b1, b2, b3, b4, b5,
        h6, ace4_only_write_data, ace4_mask.mk.injEq]

/-- Witness for C3: caller uid 1000 (gid 100), object owned by uid 7 with
no ACL, a mode-bit oracle granting write; server-"now" timestamps pass,
explicit timestamps fail. -/
theorem C3_setattr_time_permission_witness :
    fsal_check_setattr_perms
      { caller_uid := 1000, caller_gid := 100, caller_garray := [] }
      { owner := 7, group := 5, mode := 420, change := 0, acl := false }
      { set_owner := false, set_group := false, set_mode := false,
        set_acl := false, set_size := false, set_space_reserved := false,
        set_atime := false, set_mtime := false, set_ctime := false,
        set_creation := false, set_atime_server := true,
        set_mtime_server := true, owner := 0, group := 0, mode := 0 }
      (fun r => match r with
        | access_request.mode_w => fsalstat fsal_errors.ERR_FSAL_NO_ERROR 0
        | access_request.ace4 _ => fsalstat fsal_errors.ERR_FSAL_PERM 0) =
      fsalstat fsal_errors.ERR_FSAL_NO_ERROR 0 ∧
    fsal_check_setattr_perms
      { caller_uid := 1000, caller_gid := 100, caller_garray := [] }
      { owner := 7, group := 5, mode := 420, change := 0, acl := false }
      { set_owner := false, set_group := false, set_mode := false,
        set_acl := false, set_size := false, set_space_reserved := false,
        set_atime := true, set_mtime := true, set_ctime := false,
        set_creation := false, set_atime_server := false,
        set_mtime_server := false, owner := 0, group := 0, mode := 0 }
      (fun r => match r with
        | access_request.mode_w => fsalstat fsal_errors.ERR_FSAL_NO_ERROR 0
        | access_request.ace4 _ => fsalstat fsal_errors.ERR_FSAL_PERM 0) =
      fsalstat fsal_errors.ERR_FSAL_PERM 0 :=
  C3_setattr_time_permission
    { caller_uid := 1000, caller_gid := 100, caller_garray := [] }
    { owner := 7, group := 5, mode := 420, change := 0, acl := false }
    (fun r => match r with
      | access_request.mode_w => fsalstat fsal_errors.ERR_FSAL_NO_ERROR 0
      | access_request.ace4 _ => fsalstat fsal_errors.ERR_FSAL_PERM 0)
    { set_owner := false, set_group := false, set_mode := false,
      set_acl := false, set_size := false, set_space_reserved := false,
      set_atime := false, set_mtime := false, set_ctime := false,
      set_creation := false, set_atime_server := true,
      set_mtime_server := true, owner := 0, group := 0, mode := 0 }
    { set_owner := false, set_group := false, set_mode := false,
      set_acl := false, set_size := false, set_space_reserved := false,
      set_atime := true, set_mtime := true, set_ctime := false,
      set_creation := false, set_atime_server := false,
      set_mtime_server := false, owner := 0, group := 0, mode := 0 }
    (by decide) (by decide) rfl rfl
    (by exact ⟨rfl, rfl, rfl, rfl, rfl, rfl, rfl, Or.inl rfl⟩)
    (by exact ⟨rfl, rfl, rfl, rfl, rfl, Or.inl rfl⟩)

/-- A filesystem object handle: identity (standing in for the C pointer
identity) plus its immutable type tag. -/
structure obj_handle where
  oid : Nat
  ty : object_file_type
deriving DecidableEq, Repr

/-- Backend responses consumed by one `fsal_create` call: the constructor
dispatch result, the parent attribute refresh, and the re-resolving
`fsal_lookup` result used on an already-exists race. -/
structure create_env where
  ctor_status : fsal_status
  ctor_obj : Option obj_handle
  refresh_parent_status : fsal_status
  lookup_status : fsal_status
  lookup_obj : Option obj_handle
deriving DecidableEq, Repr

/-- `fsal_create` from `fsal_helper.c` (lines 727-842): validate the
requested type, dispatch to the matching backend constructor, refresh the
parent (result ignored), and on an already-exists error re-resolve the name
via lookup, reporting exists with the found object only when its type
matches the request. -/
def fsal_create (ty : object_file_type) (env : create_env) :
    fsal_status × Option obj_handle :=
  if ty = object_file_type.NO_FILE_TYPE ∨
      ty = object_file_type.EXTENDED_ATTR then
    (fsalstat fsal_errors.ERR_FSAL_BADTYPE 0, none)
  else
    let status := env.ctor_status
    if FSAL_IS_ERROR status then
      if status.major = fsal_errors.ERR_FSAL_STALE then (status, none)
      else if status.major = fsal_errors.ERR_FSAL_EXIST then
        match env.lookup_obj with
        | some o =>
          (fsalstat fsal_errors.ERR_FSAL_EXIST 0,
            if o.ty ≠ ty then none else some o)
        | none => (env.lookup_status, none)
      else (status, none)
    else (status, env.ctor_obj)

/-- C4: when the backend constructor reports already-exists and the
re-resolving lookup finds an object, `fsal_create` returns the exists error
with a non-null object exactly when the found object's type equals the
requested type, and with a null object when the types differ. -/
theorem C4_create_exists_race (ty : object_file_type) (env : create_env)
    (o : obj_handle)
    (hty : ty ≠ object_file_type.NO_FILE_TYPE ∧
      ty ≠ object_file_type.EXTENDED_ATTR)
    (hexist : env.ctor_status.major = fsal_errors.ERR_FSAL_EXIST)
    (hlk : env.lookup_obj = some o) :
    (fsal_create ty env).1 = fsalstat fsal_errors.ERR_FSAL_EXIST 0 ∧
    ((fsal_create ty env).2 ≠ none ↔ o.ty = ty) ∧
    (o.ty = ty → (fsal_create ty env).2 = some o) := by
  have herr : FSAL_IS_ERROR env.ctor_status = true := by
    simp [FSAL_IS_ERROR, hexist]
  have hnst : ¬ env.ctor_status.major = fsal_errors.ERR_FSAL_STALE := by
    rw [hexist]; intro h; cases h
  by_cases hT : o.ty = ty
  · simp [fsal_create, hty.1, hty.2, herr, hnst, hexist, hlk, hT]
  · simp [fsal_create, hty.1, hty.2, herr, hnst, hexist, hlk, hT]

/-- The concrete backend-response record used by the C4 witness. -/
def c4_witness_env : create_env :=
  { ctor_status := fsalstat fsal_errors.ERR_FSAL_EXIST 0,
    ctor_obj := none,
    refresh_parent_status := fsalstat fsal_errors.ERR_FSAL_NO_ERROR 0,
    lookup_status := fsalstat fsal_errors.ERR_FSAL_NO_ERROR 0,
    lookup_obj := some { oid := 42, ty := object_file_type.REGULAR_FILE } }

/-- Witness for C4: a regular-file create losing the race; the lookup finds
a regular file, so the exists error carries the found object. -/
theorem C4_create_exists_race_witness :
    (fsal_create object_file_type.REGULAR_FILE c4_witness_env).1 =
      fsalstat fsal_errors.ERR_FSAL_EXIST 0 ∧
    ((fsal_create object_file_type.REGULAR_FILE c4_witness_env).2 ≠ none ↔
      object_file_type.REGULAR_FILE = object_file_type.REGULAR_FILE) ∧
    (object_file_type.REGULAR_FILE = object_file_type.REGULAR_FILE →
      (fsal_create object_file_type.REGULAR_FILE c4_witness_env).2 =
        some { oid := 42, ty := object_file_type.REGULAR_FILE }) :=
  C4_create_exists_race object_file_type.REGULAR_FILE c4_witness_env
    { oid := 42, ty := object_file_type.REGULAR_FILE }
    (by decide) rfl rfl

/-- NFSv4 status codes as far as `fsal_rename` produces them. -/
inductive nfsstat4 where
  | NFS4_OK
  | NFS4ERR_NOTDIR
  | NFS4ERR_BADNAME
  | NFS4ERR_NOTEMPTY
  | NFS4ERR_FROM_FSAL (e : fsal_errors)
deriving DecidableEq, Repr

/-- Modelled from the spec: `nfs4_Errno_status` (in `nfs_convert`, not under
`src/`) is the error-taxonomy translation to NFSv4 codes; success maps to
`NFS4_OK` and an error maps to the NFS4 code determined by its major kind,
kept symbolic here. -/
def nfs4_Errno_status (s : fsal_status) : nfsstat4 :=
  if FSAL_IS_ERROR s then nfsstat4.NFS4ERR_FROM_FSAL s.major
  else nfsstat4.NFS4_OK

/-- Responses consumed by one `fsal_rename` call: the two lookups, the
source object's junction/export-root state, the backend rename result and
the destination attribute refresh result. -/
structure rename_env where
  lookup_src_status : fsal_status
  lookup_src_obj : obj_handle
  src_junction : Bool
  src_exp_root_refcount : Int
  lookup_dst_status : fsal_status
  lookup_dst_obj : obj_handle
  rename_status : fsal_status
  refresh_dst_status : fsal_status
deriving DecidableEq, Repr

/-- `fsal_rename` from `fsal_helper.c` (lines 1394-1485).  Returns the NFS4
status and whether the backend rename operation was invoked.  Rejects
non-directories and dot names, fails if the source is missing, refuses to
rename a junction or export root, short-circuits with success when source
and destination resolve to the same object, otherwise delegates to the
backend and refreshes a pre-existing destination. -/
def fsal_rename (dir_src : obj_handle) (oldname : String)
    (dir_dest : obj_handle) (newname : String) (env : rename_env) :
    nfsstat4 × Bool :=
  if dir_src.ty ≠ object_file_type.DIRECTORY ∨
      dir_dest.ty ≠ object_file_type.DIRECTORY then
    (nfsstat4.NFS4ERR_NOTDIR, false)
  else if oldname = "." ∨ oldname = ".." ∨
      newname = "." ∨ newname = ".." then
    (nfsstat4.NFS4ERR_BADNAME, false)
  else if FSAL_IS_ERROR env.lookup_src_status then
    (nfs4_Errno_status env.lookup_src_status, false)
  else if env.lookup_src_obj.ty = object_file_type.DIRECTORY ∧
      (env.src_junction ∨ env.src_exp_root_refcount ≠ 0) then
    (nfsstat4.NFS4ERR_NOTEMPTY, false)
  else if ¬ FSAL_IS_ERROR env.lookup_dst_status ∧
      env.lookup_src_obj = env.lookup_dst_obj then
    (nfs4_Errno_status env.lookup_dst_status, false)
  else if FSAL_IS_ERROR env.lookup_dst_status ∧
      env.lookup_dst_status.major ≠ fsal_errors.ERR_FSAL_NOENT then
    (nfs4_Errno_status env.lookup_dst_status, false)
  else if FSAL_IS_ERROR env.rename_status then
    (nfs4_Errno_status env.rename_status, true)
  else if ¬ FSAL_IS_ERROR env.lookup_dst_status ∧
      FSAL_IS_ERROR env.refresh_dst_status ∧
      env.refresh_dst_status.major ≠ fsal_errors.ERR_FSAL_STALE then
    (nfs4_Errno_status env.refresh_dst_status, true)
  else (nfsstat4.NFS4_OK, true)

/-- C5: when the destination lookup resolves to the same object as the
source, `fsal_rename` returns success and never invokes the backend rename
operation. -/
theorem C5_rename_same_object_noop (dir_src dir_dest : obj_handle)
    (oldname newname : String) (env : rename_env)
    (hsrc : dir_src.ty = object_file_type.DIRECTORY)
    (hdst : dir_dest.ty = object_file_type.DIRECTORY)
    (hold : oldname ≠ "." ∧ oldname ≠ "..")
    (hnew : newname ≠ "." ∧ newname ≠ "..")
    (hls : env.lookup_src_status.major = fsal_errors.ERR_FSAL_NO_ERROR)
    (hjx : ¬ (env.lookup_src_obj.ty = object_file_type.DIRECTORY ∧
      (env.src_junction ∨ env.src_exp_root_refcount ≠ 0)))
    (hld : env.lookup_dst_status.major = fsal_errors.ERR_FSAL_NO_ERROR)
    (hsame : env.lookup_src_obj = env.lookup_dst_obj) :
    fsal_rename dir_src oldname dir_dest newname env =
      (nfsstat4.NFS4_OK, false) := by
  have h1 : FSAL_IS_ERROR env.lookup_src_status = false := by
    simp [FSAL_IS_ERROR, hls]
  have h2 : FSAL_IS_ERROR env.lookup_dst_status = false := by
    simp [FSAL_IS_ERROR, hld]
  rw [hsame] at hjx
  simp [fsal_rename, hsrc, hdst, hold.1, hold.2, hnew.1, hnew.2, h1, h2,
    hsame, nfs4_Errno_status]
  intro hA
  constructor
  · by_contra hB
    exact hjx ⟨hA, Or.inl (by simpa using hB)⟩
  · by_contra hC
    exact hjx ⟨hA, Or.inr hC⟩

/-- Witness for C5: `rename(dir, "a", dir, "b")` where both names resolve
to the object with identity 9. -/
theorem C5_rename_same_object_noop_witness :
    fsal_rename { oid := 1, ty := object_file_type.DIRECTORY } "a"
      { oid := 1, ty := object_file_type.DIRECTORY } "b"
      { lookup_src_status := fsalstat fsal_errors.ERR_FSAL_NO_ERROR 0,
        lookup_src_obj := { oid := 9, ty := object_file_type.REGULAR_FILE },
        src_junction := false,
        src_exp_root_refcount := 0,
        lookup_dst_status := fsalstat fsal_errors.ERR_FSAL_NO_ERROR 0,
        lookup_dst_obj := { oid := 9, ty := object_file_type.REGULAR_FILE },
        rename_status := fsalstat fsal_errors.ERR_FSAL_NO_ERROR 0,
        refresh_dst_status := fsalstat fsal_errors.ERR_FSAL_NO_ERROR 0 } =
      (nfsstat4.NFS4_OK, false) :=
  C5_rename_same_object_noop
    { oid := 1, ty := object_file_type.DIRECTORY }
    { oid := 1, ty := object_file_type.DIRECTORY } "a" "b"
    { lookup_src_status := fsalstat fsal_errors.ERR_FSAL_NO_ERROR 0,
      lookup_src_obj := { oid := 9, ty := object_file_type.REGULAR_FILE },
      src_junction := false,
      src_exp_root_refcount := 0,
      lookup_dst_status := fsalstat fsal_errors.ERR_FSAL_NO_ERROR 0,
      lookup_dst_obj := { oid := 9, ty := object_file_type.REGULAR_FILE },
      rename_status := fsalstat fsal_errors.ERR_FSAL_NO_ERROR 0,
      refresh_dst_status := fsalstat fsal_errors.ERR_FSAL_NO_ERROR 0 }
    rfl rfl (by decide) (by decide) rfl (by decide) rfl rfl

/-- `fsal_openflags_t` values from the FSAL ABI (`fsal_types.h`): the bit
layout is forced by the source's tests (`FSAL_O_CLOSED` must be the zero
value for the truthiness test on `loflags`, `FSAL_O_RDWR` is read|write,
sync and reclaim are separate bits). -/
def FSAL_O_CLOSED : Nat := 0

/-- Read bit of `fsal_openflags_t`. -/
def FSAL_O_READ : Nat := 1

/-- Write bit of `fsal_openflags_t`. -/
def FSAL_O_WRITE : Nat := 2

/-- Read|write. -/
def FSAL_O_RDWR : Nat := 3

/-- Sync bit. -/
def FSAL_O_SYNC : Nat := 4

/-- Reclaim bit, filtered out by `fsal_open`. -/
def FSAL_O_RECLAIM : Nat := 8

/-- The backend (`obj_ops`) calls a helper can issue, recorded in traces. -/
inductive backend_call where
  | call_open
  | call_reopen
  | call_close
  | call_read
  | call_read_plus
  | call_write
  | call_write_plus
  | call_commit
  | call_getattrs
deriving DecidableEq, Repr

/-- Backend responses consumed by the open/close/read/write/commit helpers.
On a successful backend open or reopen the handle carries the requested
flags; a successful backend close leaves it `FSAL_O_CLOSED`. -/
structure io_backend where
  open_status : fsal_status
  reopen_status : fsal_status
  close_status : fsal_status
  read_status : fsal_status
  read_bytes : Nat
  write_status : fsal_status
  write_bytes : Nat
  write_stable : Bool
  commit_status : fsal_status
  refresh_status : fsal_status
deriving DecidableEq, Repr

/-- `fsal_is_open` from `fsal_helper.c` (lines 64-69): a non-regular handle
is never open; otherwise open means the status flags differ from
`FSAL_O_CLOSED`. -/
def fsal_is_open (ty : object_file_type) (flags : Nat) : Bool :=
  if ty ≠ object_file_type.REGULAR_FILE then false
  else flags ≠ FSAL_O_CLOSED

/-- Result of `fsal_open`: status, the handle's flags afterwards, the
global `open_fd_count` afterwards, and the backend calls made. -/
structure open_result where
  status : fsal_status
  flags : Nat
  fd_count : Nat
  calls : List backend_call
deriving DecidableEq, Repr

/-- `fsal_open` from `fsal_helper.c` (lines 1494-1549): reject non-regular
files; filter `FSAL_O_RECLAIM`; when the current flags are neither rdwr,
closed nor the requested flags, reopen (if the export supports it) or close
(decrementing `open_fd_count` on a real close); then, if the handle ended
up closed, open it through the backend and increment `open_fd_count`. -/
def fsal_open (ty : object_file_type) (flags fd_count : Nat)
    (reopen_method : Bool) (b : io_backend) (openflags : Nat) : open_result :=
  if ty ≠ object_file_type.REGULAR_FILE then
    { status := fsalstat fsal_errors.ERR_FSAL_BADTYPE 0, flags := flags,
      fd_count := fd_count, calls := [] }
  else
    let of := openflags - (openflags &&& FSAL_O_RECLAIM)
    let s0 : Nat × Nat × List backend_call × Option fsal_status :=
      if flags ≠ FSAL_O_RDWR ∧ flags ≠ FSAL_O_CLOSED ∧ flags ≠ of then
        if reopen_method then
          if FSAL_IS_ERROR b.reopen_status then
            if b.reopen_status.major = fsal_errors.ERR_FSAL_NOT_OPENED then
              (flags, fd_count, [backend_call.call_reopen], none)
            else
              (flags, fd_count, [backend_call.call_reopen],
                some b.reopen_status)
          else (of, fd_count, [backend_call.call_reopen], none)
        else
          if FSAL_IS_ERROR b.close_status then
            if b.close_status.major = fsal_errors.ERR_FSAL_NOT_OPENED then
              (flags, fd_count, [backend_call.call_close], none)
            else
              (flags, fd_count, [backend_call.call_close],
                some b.close_status)
          else (FSAL_O_CLOSED, fd_count - 1, [backend_call.call_close], none)
      else (flags, fd_count, [], none)
    match s0 with
    | (fl, fd, tr, some st) =>
      { status := st, flags := fl, fd_count := fd, calls := tr }
    | (fl, fd, tr, none) =>
      if fl = FSAL_O_CLOSED then
        if FSAL_IS_ERROR b.open_status then
          { status := b.open_status, flags := fl, fd_count := fd,
            calls := tr ++ [backend_call.call_open] }
        else
          { status := fsalstat fsal_errors.ERR_FSAL_NO_ERROR 0, flags := of,
            fd_count := fd + 1, calls := tr ++ [backend_call.call_open] }
      else
        { status := fsalstat fsal_errors.ERR_FSAL_NO_ERROR 0, flags := fl,
          fd_count := fd, calls := tr }

/-- `fsal_close` from `fsal_helper.c` (lines 1557-1573): bad-type for
non-regular handles; success without a backend call when the handle is not
open; else delegate to the backend close. -/
def fsal_close (ty : object_file_type) (flags : Nat) (b : io_backend) :
    fsal_status × List backend_call :=
  if ty ≠ object_file_type.REGULAR_FILE then
    (fsalstat fsal_errors.ERR_FSAL_BADTYPE 0, [])
  else if ¬ fsal_is_open ty flags then
    (fsalstat fsal_errors.ERR_FSAL_NO_ERROR 0, [])
  else (b.close_status, [backend_call.call_close])

/-- C10: `fsal_close` on a regular-file handle whose status flags report it
already closed returns success without invoking the backend close; on a
non-regular handle it returns the bad-type error without any backend call. -/
theorem C10_close_already_closed_and_bad_type (ty : object_file_type)
    (flags : Nat) (b : io_backend) :
    (ty = object_file_type.REGULAR_FILE → flags = FSAL_O_CLOSED →
      fsal_close ty flags b =
        (fsalstat fsal_errors.ERR_FSAL_NO_ERROR 0, [])) ∧
    (ty ≠ object_file_type.REGULAR_FILE →
      fsal_close ty flags b =
        (fsalstat fsal_errors.ERR_FSAL_BADTYPE 0, [])) := by
  constructor
  · intro h1 h2
    simp [fsal_close, fsal_is_open, h1, h2]
  · intro h1
    simp [fsal_close, h1]

/-- Witness for C10 at concrete inputs: a closed regular file and a
directory. -/
theorem C10_close_already_closed_and_bad_type_witness :
    fsal_close object_file_type.REGULAR_FILE FSAL_O_CLOSED
      { open_status := fsalstat fsal_errors.ERR_FSAL_NO_ERROR 0,
        reopen_status := fsalstat fsal_errors.ERR_FSAL_NO_ERROR 0,
        close_status := fsalstat fsal_errors.ERR_FSAL_NO_ERROR 0,
        read_status := fsalstat fsal_errors.ERR_FSAL_NO_ERROR 0,
        read_bytes := 0,
        write_status := fsalstat fsal_errors.ERR_FSAL_NO_ERROR 0,
        write_bytes := 0, write_stable := false,
        commit_status := fsalstat fsal_errors.ERR_FSAL_NO_ERROR 0,
        refresh_status := fsalstat fsal_errors.ERR_FSAL_NO_ERROR 0 } =
      (fsalstat fsal_errors.ERR_FSAL_NO_ERROR 0, []) ∧
    fsal_close object_file_type.DIRECTORY 3
      { open_status := fsalstat fsal_errors.ERR_FSAL_NO_ERROR 0,
        reopen_status := fsalstat fsal_errors.ERR_FSAL_NO_ERROR 0,
        close_status := fsalstat fsal_errors.ERR_FSAL_NO_ERROR 0,
        read_status := fsalstat fsal_errors.ERR_FSAL_NO_ERROR 0,
        read_bytes := 0,
        write_status := fsalstat fsal_errors.ERR_FSAL_NO_ERROR 0,
        write_bytes := 0, write_stable := false,
        commit_status := fsalstat fsal_errors.ERR_FSAL_NO_ERROR 0,
        refresh_status := fsalstat fsal_errors.ERR_FSAL_NO_ERROR 0 } =
      (fsalstat fsal_errors.ERR_FSAL_BADTYPE 0, []) := by
  refine ⟨(C10_close_already_closed_and_bad_type
      object_file_type.REGULAR_FILE FSAL_O_CLOSED _).1 rfl rfl,
    (C10_close_already_closed_and_bad_type
      object_file_type.DIRECTORY 3 _).2 (by decide)⟩

/-- Result of `fsal_commit`: status and the backend calls made. -/
structure commit_result where
  status : fsal_status
  calls : List backend_call
deriving DecidableEq, Repr

/-- `fsal_commit` from `fsal_helper.c` (lines 1604-1629): reject a
`(uint64_t)len > ~(uint64_t)offset` overflow with `ERR_FSAL_INVAL` before
doing anything; otherwise open the file for write if it is not open,
delegate the commit, and close again if this call opened it (the close
status is discarded).  `offset` is an `off_t` cast to `uint64_t`, modelled
by reduction modulo `2 ^ 64`. -/
def fsal_commit (ty : object_file_type) (flags fd_count : Nat)
    (reopen_method : Bool) (b : io_backend) (offset : Int) (len : Nat) :
    commit_result :=
  let off64 : Nat := (offset % (2 ^ 64 : Int)).toNat
  let len64 : Nat := len % 2 ^ 64
  if len64 > 2 ^ 64 - 1 - off64 then
    { status := fsalstat fsal_errors.ERR_FSAL_INVAL 0, calls := [] }
  else if ¬ fsal_is_open ty flags then
    let r := fsal_open ty flags fd_count reopen_method b FSAL_O_WRITE
    if FSAL_IS_ERROR r.status then
      { status := r.status, calls := r.calls }
    else
      { status := b.commit_status,
        calls := r.calls ++
          [backend_call.call_commit, backend_call.call_close] }
  else
    { status := b.commit_status, calls := [backend_call.call_commit] }

/-- C9: the guard `(uint64_t)len > ~(uint64_t)offset` holds exactly when
the unsigned 64-bit sum of offset and length overflows, and in that case
`fsal_commit` returns `ERR_FSAL_INVAL` without opening the file and
without invoking the backend commit. -/
theorem C9_commit_overflow_guard (ty : object_file_type)
    (flags fd_count : Nat) (reopen_method : Bool) (b : io_backend)
    (offset : Int) (len : Nat) :
    ((len % 2 ^ 64 > 2 ^ 64 - 1 - ((offset % (2 ^ 64 : Int)).toNat)) ↔
      2 ^ 64 ≤ (offset % (2 ^ 64 : Int)).toNat + len % 2 ^ 64) ∧
    (2 ^ 64 ≤ (offset % (2 ^ 64 : Int)).toNat + len % 2 ^ 64 →
      fsal_commit ty flags fd_count reopen_method b offset len =
        { status := fsalstat fsal_errors.ERR_FSAL_INVAL 0, calls := [] }) := by
  have hoff : (offset % (2 ^ 64 : Int)).toNat < 2 ^ 64 := by
    have h1 : (0 : Int) < 2 ^ 64 := by positivity
    have h2 : offset % (2 ^ 64 : Int) < 2 ^ 64 := Int.emod_lt_of_pos offset h1
    omega
  have hlen : len % 2 ^ 64 < 2 ^ 64 := Nat.mod_lt _ (by positivity)
  constructor
  · omega
  · intro h
    have hg : len % 2 ^ 64 > 2 ^ 64 - 1 - ((offset % (2 ^ 64 : Int)).toNat) := by
      omega
    simp only [fsal_commit]
    rw [if_pos hg]

/-- Witness for C9: offset `2 ^ 63` and length `2 ^ 63` sum to exactly
`2 ^ 64`, which overflows, so the call is rejected with no backend calls. -/
theorem C9_commit_overflow_guard_witness :
    2 ^ 64 ≤ (((2 : Int) ^ 63 % (2 ^ 64 : Int)).toNat + 2 ^ 63 % 2 ^ 64) ∧
    fsal_commit object_file_type.REGULAR_FILE 0 0 false
      { open_status := fsalstat fsal_errors.ERR_FSAL_NO_ERROR 0,
        reopen_status := fsalstat fsal_errors.ERR_FSAL_NO_ERROR 0,
        close_status := fsalstat fsal_errors.ERR_FSAL_NO_ERROR 0,
        read_status := fsalstat fsal_errors.ERR_FSAL_NO_ERROR 0,
        read_bytes := 0,
        write_status := fsalstat fsal_errors.ERR_FSAL_NO_ERROR 0,
        write_bytes := 0, write_stable := false,
        commit_status := fsalstat fsal_errors.ERR_FSAL_NO_ERROR 0,
        refresh_status := fsalstat fsal_errors.ERR_FSAL_NO_ERROR 0 }
      ((2 : Int) ^ 63) (2 ^ 63) =
      { status := fsalstat fsal_errors.ERR_FSAL_INVAL 0, calls := [] } := by
  have h : (2 : ℕ) ^ 64 ≤ (((2 : Int) ^ 63 % (2 ^ 64 : Int)).toNat + 2 ^ 63 % 2 ^ 64) := by
    decide
  exact ⟨h, (C9_commit_overflow_guard object_file_type.REGULAR_FILE 0 0 false
    { open_status := fsalstat fsal_errors.ERR_FSAL_NO_ERROR 0,
      reopen_status := fsalstat fsal_errors.ERR_FSAL_NO_ERROR 0,
      close_status := fsalstat fsal_errors.ERR_FSAL_NO_ERROR 0,
      read_status := fsalstat fsal_errors.ERR_FSAL_NO_ERROR 0,
      read_bytes := 0,
      write_status := fsalstat fsal_errors.ERR_FSAL_NO_ERROR 0,
      write_bytes := 0, write_stable := false,
      commit_status := fsalstat fsal_errors.ERR_FSAL_NO_ERROR 0,
      refresh_status := fsalstat fsal_errors.ERR_FSAL_NO_ERROR 0 }
    ((2 : Int) ^ 63) (2 ^ 63)).2 h⟩

/-- `fsal_io_direction_t`. -/
inductive io_direction where
  | FSAL_IO_READ
  | FSAL_IO_WRITE
  | FSAL_IO_READ_PLUS
  | FSAL_IO_WRITE_PLUS
deriving DecidableEq, Repr

/-- Result of `fsal_rdwr`: status, bytes moved, the in/out sync flag, the
handle flags and fd count afterwards, and the backend calls made. -/
structure rdwr_result where
  status : fsal_status
  bytes_moved : Nat
  sync : Bool
  flags : Nat
  fd_count : Nat
  calls : List backend_call
deriving DecidableEq, Repr

/-- State threaded through `fsal_rdwr`'s open-satisfaction loop: handle
flags, fd count, whether this call performed an open, the `loflags` local
variable, and the backend calls so far. -/
structure rdwr_loop_state where
  flags : Nat
  fd_count : Nat
  opened : Bool
  loflags : Nat
  calls : List backend_call
deriving DecidableEq, Repr

/-- Outcome of the open-satisfaction loop: an error exit from `fsal_open`,
readiness for I/O, or fuel exhaustion (the source loop is unbounded; the
spec itself flags it as potentially non-terminating under concurrent
modification, so the embedding makes the bound explicit). -/
inductive rdwr_loop_result where
  | failed (status : fsal_status) (st : rdwr_loop_state)
  | ready (st : rdwr_loop_state)
  | fuel_out
deriving DecidableEq, Repr

/-- The `while` condition of `fsal_rdwr`'s open loop:
`!fsal_is_open(obj) || (loflags && loflags != FSAL_O_RDWR && loflags != openflags)`. -/
def rdwr_needs_open (ty : object_file_type)
    (openflags flags loflags : Nat) : Bool :=
  !(fsal_is_open ty flags) ||
    (loflags != FSAL_O_CLOSED && loflags != FSAL_O_RDWR &&
      loflags != openflags)

/-- The open-satisfaction loop of `fsal_rdwr` (`fsal_helper.c` lines
937-950): while the flags are unsatisfying, re-check and call `fsal_open`,
exiting with its status on error and marking `opened`. -/
def rdwr_open_loop (ty : object_file_type) (reopen_method : Bool)
    (b : io_backend) (openflags : Nat) :
    Nat → rdwr_loop_state → rdwr_loop_result
  | 0, st =>
    if rdwr_needs_open ty openflags st.flags st.loflags then
      rdwr_loop_result.fuel_out
    else rdwr_loop_result.ready st
  | Nat.succ fuel, st =>
    if rdwr_needs_open ty openflags st.flags st.loflags then
      if rdwr_needs_open ty openflags st.flags st.flags then
        let r := fsal_open ty st.flags st.fd_count reopen_method b openflags
        if FSAL_IS_ERROR r.status then
          rdwr_loop_result.failed r.status
            { st with
                flags := r.flags, fd_count := r.fd_count,
                calls := st.calls ++ r.calls }
        else
          rdwr_open_loop ty reopen_method b openflags fuel
            { flags := r.flags, fd_count := r.fd_count, opened := true,
              loflags := r.flags, calls := st.calls ++ r.calls }
      else
        rdwr_open_loop ty reopen_method b openflags fuel
          { st with loflags := st.flags }
    else rdwr_loop_result.ready st

/-- When the loop condition is already false, the loop exits immediately
with the unchanged state, whatever the fuel. -/
theorem rdwr_open_loop_ready (ty : object_file_type) (reopen_method : Bool)
    (b : io_backend) (openflags fuel : Nat) (st : rdwr_loop_state)
    (h : rdwr_needs_open ty openflags st.flags st.loflags = false) :
    rdwr_open_loop ty reopen_method b openflags fuel st =
      rdwr_loop_result.ready st := by
  cases fuel <;> simp [rdwr_open_loop, h]

/-- The effective sync flag `fsal_rdwr` computes before opening: reads
keep the caller's value; writes are forced stable when the export carries
the commit option. -/
def rdwr_sync1 (dir : io_direction) (commit_option sync0 : Bool) : Bool :=
  if dir = io_direction.FSAL_IO_READ ∨ dir = io_direction.FSAL_IO_READ_PLUS
    then sync0 else (if commit_option then true else sync0)

/-- The open flags `fsal_rdwr` requires for a direction: read for reads,
write (plus sync when the write is to be stable) for writes. -/
def rdwr_openflags (dir : io_direction) (commit_option sync0 : Bool) : Nat :=
  if dir = io_direction.FSAL_IO_READ ∨ dir = io_direction.FSAL_IO_READ_PLUS
    then FSAL_O_READ
    else FSAL_O_WRITE + (if rdwr_sync1 dir commit_option sync0
      then FSAL_O_SYNC else 0)

/-- `fsal_rdwr` from `fsal_helper.c` (lines 888-1053): compute the required
open flags from the direction and export commit policy, reject non-regular
files, converge the open flags through the loop, issue the backend I/O
(with the explicit commit when a requested-stable write came back
unstable), and on error report zero bytes moved, returning a stale or
not-opened error as-is and otherwise closing a still-open handle and
returning that close's status; on success close the handle when this call
opened it and refresh attributes for writes. -/
def fsal_rdwr (ty : object_file_type) (flags0 fd_count0 : Nat)
    (reopen_method commit_option : Bool) (b : io_backend)
    (dir : io_direction) (sync0 : Bool) (bytes0 : Nat) (fuel : Nat) :
    Option rdwr_result :=
  let sync1 := rdwr_sync1 dir commit_option sync0
  let openflags := rdwr_openflags dir commit_option sync0
  if ty ≠ object_file_type.REGULAR_FILE then
    let badst := if ty = object_file_type.DIRECTORY
      then fsal_errors.ERR_FSAL_ISDIR else fsal_errors.ERR_FSAL_BADTYPE
    some { status := fsalstat badst 0, bytes_moved := bytes0, sync := sync1,
                flags := flags0, fd_count := fd_count0, calls := [] }
  else
    match rdwr_open_loop ty reopen_method b openflags fuel
        { flags := flags0, fd_count := fd_count0, opened := false,
          loflags := flags0, calls := [] } with
    | rdwr_loop_result.fuel_out => none
    | rdwr_loop_result.failed s st =>
      some { status := s, bytes_moved := bytes0, sync := sync1,
             flags := st.flags, fd_count := st.fd_count, calls := st.calls }
    | rdwr_loop_result.ready st =>
      let io : fsal_status × Nat × List backend_call × Bool :=
        match dir with
        | io_direction.FSAL_IO_READ =>
          (b.read_status, b.read_bytes, [backend_call.call_read], sync1)
        | io_direction.FSAL_IO_READ_PLUS =>
          (b.read_status, b.read_bytes, [backend_call.call_read_plus], sync1)
        | io_direction.FSAL_IO_WRITE =>
          if sync1 ∧ (st.loflags &&& FSAL_O_SYNC = 0) ∧ ¬ b.write_stable ∧
              ¬ FSAL_IS_ERROR b.write_status then
            (b.commit_status, b.write_bytes,
              [backend_call.call_write, backend_call.call_commit], sync1)
          else
            (b.write_status, b.write_bytes, [backend_call.call_write],
              b.write_stable)
        | io_direction.FSAL_IO_WRITE_PLUS =>
          if sync1 ∧ (st.loflags &&& FSAL_O_SYNC = 0) ∧ ¬ b.write_stable ∧
              ¬ FSAL_IS_ERROR b.write_status then
            (b.commit_status, b.write_bytes,
              [backend_call.call_write_plus, backend_call.call_commit],
              sync1)
          else
            (b.write_status, b.write_bytes, [backend_call.call_write_plus],
              b.write_stable)
      match io with
      | (iost, iobytes, iocalls, sync2) =>
        let calls1 := st.calls ++ iocalls
        if FSAL_IS_ERROR iost then
          if iost.major = fsal_errors.ERR_FSAL_STALE then
            some { status := iost, bytes_moved := 0, sync := sync2,
                   flags := st.flags, fd_count := st.fd_count, calls := calls1 }
          else if iost.major ≠ fsal_errors.ERR_FSAL_NOT_OPENED ∧
              st.flags ≠ FSAL_O_CLOSED then
            some { status := b.close_status, bytes_moved := 0, sync := sync2,
                   flags := if FSAL_IS_ERROR b.close_status then st.flags
                     else FSAL_O_CLOSED,
                   fd_count := st.fd_count,
                   calls := calls1 ++ [backend_call.call_close] }
          else
            some { status := iost, bytes_moved := 0, sync := sync2,
                   flags := st.flags, fd_count := st.fd_count, calls := calls1 }
        else
          let tail := fun (fl : Nat) (cs : List backend_call) =>
            if dir = io_direction.FSAL_IO_WRITE ∨
                dir = io_direction.FSAL_IO_WRITE_PLUS then
              if FSAL_IS_ERROR b.refresh_status then
                some { status := b.refresh_status, bytes_moved := iobytes,
                       sync := sync2, flags := fl, fd_count := st.fd_count,
                       calls := cs ++ [backend_call.call_getattrs] }
              else
                some { status := fsalstat fsal_errors.ERR_FSAL_NO_ERROR 0,
                       bytes_moved := iobytes, sync := sync2, flags := fl,
                       fd_count := st.fd_count,
                       calls := cs ++ [backend_call.call_getattrs] }
            else
              some { status := fsalstat fsal_errors.ERR_FSAL_NO_ERROR 0,
                     bytes_moved := iobytes, sync := sync2, flags := fl,
                     fd_count := st.fd_count, calls := cs }
          if st.opened then
            if FSAL_IS_ERROR b.close_status then
              some { status := b.close_status, bytes_moved := iobytes,
                     sync := sync2, flags := st.flags, fd_count := st.fd_count,
                     calls := calls1 ++ [backend_call.call_close] }
            else tail FSAL_O_CLOSED (calls1 ++ [backend_call.call_close])
          else tail st.flags calls1

/-- The status of the backend I/O call `fsal_rdwr` issues for a direction. -/
def rdwr_io_status (dir : io_direction) (b : io_backend) : fsal_status :=
  match dir with
  | io_direction.FSAL_IO_READ => b.read_status
  | io_direction.FSAL_IO_READ_PLUS => b.read_status
  | io_direction.FSAL_IO_WRITE => b.write_status
  | io_direction.FSAL_IO_WRITE_PLUS => b.write_status

/-- The backend call `fsal_rdwr` issues for the I/O of a direction. -/
def rdwr_io_calls (dir : io_direction) : List backend_call :=
  match dir with
  | io_direction.FSAL_IO_READ => [backend_call.call_read]
  | io_direction.FSAL_IO_READ_PLUS => [backend_call.call_read_plus]
  | io_direction.FSAL_IO_WRITE => [backend_call.call_write]
  | io_direction.FSAL_IO_WRITE_PLUS => [backend_call.call_write_plus]

/-- Backend record for the C6 counterexample, stale case: the read fails
with the stale error while close would succeed. -/
def c6_backend_stale : io_backend :=
  { open_status := fsalstat fsal_errors.ERR_FSAL_NO_ERROR 0,
    reopen_status := fsalstat fsal_errors.ERR_FSAL_NO_ERROR 0,
    close_status := fsalstat fsal_errors.ERR_FSAL_NO_ERROR 0,
    read_status := fsalstat fsal_errors.ERR_FSAL_STALE 0,
    read_bytes := 0,
    write_status := fsalstat fsal_errors.ERR_FSAL_NO_ERROR 0,
    write_bytes := 0, write_stable := false,
    commit_status := fsalstat fsal_errors.ERR_FSAL_NO_ERROR 0,
    refresh_status := fsalstat fsal_errors.ERR_FSAL_NO_ERROR 0 }

/-- Backend record for the C6 counterexample, I/O-error case: the read
fails with a plain I/O error and the close succeeds. -/
def c6_backend_ioerr : io_backend :=
  { open_status := fsalstat fsal_errors.ERR_FSAL_NO_ERROR 0,
    reopen_status := fsalstat fsal_errors.ERR_FSAL_NO_ERROR 0,
    close_status := fsalstat fsal_errors.ERR_FSAL_NO_ERROR 0,
    read_status := fsalstat fsal_errors.ERR_FSAL_IO 0,
    read_bytes := 0,
    write_status := fsalstat fsal_errors.ERR_FSAL_NO_ERROR 0,
    write_bytes := 0, write_stable := false,
    commit_status := fsalstat fsal_errors.ERR_FSAL_NO_ERROR 0,
    refresh_status := fsalstat fsal_errors.ERR_FSAL_NO_ERROR 0 }

/-- C6 counterexample: on a handle open read/write (flags rdwr, so not
closed), (a) a stale read error is returned without any close — though the
claim demands a close for every error other than not-currently-open — and
(b) a plain I/O read error leads to a close whose success status replaces
the error, so the call returns success rather than "the error". -/
theorem C6_rdwr_claim_counterexample :
    fsal_rdwr object_file_type.REGULAR_FILE FSAL_O_RDWR 5 false false
      c6_backend_stale io_direction.FSAL_IO_READ false 99 3 =
      some { status := fsalstat fsal_errors.ERR_FSAL_STALE 0,
             bytes_moved := 0, sync := false, flags := FSAL_O_RDWR,
             fd_count := 5, calls := [backend_call.call_read] } ∧
    fsal_rdwr object_file_type.REGULAR_FILE FSAL_O_RDWR 5 false false
      c6_backend_ioerr io_direction.FSAL_IO_READ false 99 3 =
      some { status := fsalstat fsal_errors.ERR_FSAL_NO_ERROR 0,
             bytes_moved := 0, sync := false, flags := FSAL_O_CLOSED,
             fd_count := 5,
             calls := [backend_call.call_read, backend_call.call_close] } := by
  decide

/-- C6 as amended: for every `fsal_rdwr` call on a regular file whose
open-satisfaction loop completes in some state (any initial open flags)
and whose backend I/O operation returns an error, bytes_moved is reported
as 0 and: a stale or not-currently-open error is returned as-is with no
close; any other error, when the handle is not closed, leads to a close of
the handle and the call returns that close's status (so the original I/O
error survives only if the close itself fails). -/
theorem C6_rdwr_error_close_amended (flags0 fd_count0 : Nat)
    (reopen_method commit_option : Bool) (b : io_backend)
    (dir : io_direction) (sync0 : Bool) (bytes0 fuel : Nat)
    (st : rdwr_loop_state) (e : fsal_status)
    (hloop : rdwr_open_loop object_file_type.REGULAR_FILE reopen_method b
      (rdwr_openflags dir commit_option sync0) fuel
      { flags := flags0, fd_count := fd_count0, opened := false,
        loflags := flags0, calls := [] } = rdwr_loop_result.ready st)
    (hio : rdwr_io_status dir b = e)
    (herr : e.major ≠ fsal_errors.ERR_FSAL_NO_ERROR) :
    ∃ res, fsal_rdwr object_file_type.REGULAR_FILE flags0 fd_count0
        reopen_method commit_option b dir sync0 bytes0 fuel = some res ∧
      res.bytes_moved = 0 ∧
      (e.major = fsal_errors.ERR_FSAL_STALE →
        res.status = e ∧ res.calls = st.calls ++ rdwr_io_calls dir) ∧
      (e.major = fsal_errors.ERR_FSAL_NOT_OPENED →
        res.status = e ∧ res.calls = st.calls ++ rdwr_io_calls dir) ∧
      (¬ e.major = fsal_errors.ERR_FSAL_STALE →
        ¬ e.major = fsal_errors.ERR_FSAL_NOT_OPENED →
        st.flags ≠ FSAL_O_CLOSED →
        res.status = b.close_status ∧
          res.calls = st.calls ++ rdwr_io_calls dir ++
            [backend_call.call_close]) := by
  subst hio
  cases dir
  case FSAL_IO_READ =>
    simp only [rdwr_io_status] at herr ⊢
    by_cases hst : b.read_status.major = fsal_errors.ERR_FSAL_STALE
    · refine ⟨{ status := b.read_status, bytes_moved := 0, sync := sync0, flags := st.flags, fd_count := st.fd_count, calls := st.calls ++ [backend_call.call_read] }, ?_, rfl, ?_, ?_, ?_⟩
      · simp [fsal_rdwr, hloop, rdwr_sync1, FSAL_IS_ERROR, herr, hst]
      · intro _; exact ⟨rfl, rfl⟩
      · intro h; rw [hst] at h; cases h
      · intro h1 _; exact absurd hst h1
    · by_cases hno : b.read_status.major = fsal_errors.ERR_FSAL_NOT_OPENED
      · refine ⟨{ status := b.read_status, bytes_moved := 0, sync := sync0, flags := st.flags, fd_count := st.fd_count, calls := st.calls ++ [backend_call.call_read] }, ?_, rfl, ?_, ?_, ?_⟩
        · simp [fsal_rdwr, hloop, rdwr_sync1, FSAL_IS_ERROR, herr, hst, hno]
        · intro h; exact absurd h hst
        · intro _; exact ⟨rfl, rfl⟩
        · intro _ h2; exact absurd hno h2
      · by_cases hfl : st.flags = FSAL_O_CLOSED
        · refine ⟨{ status := b.read_status, bytes_moved := 0, sync := sync0, flags := st.flags, fd_count := st.fd_count, calls := st.calls ++ [backend_call.call_read] }, ?_, rfl, ?_, ?_, ?_⟩
          · simp [fsal_rdwr, hloop, rdwr_sync1, FSAL_IS_ERROR, herr, hst, hno, hfl]
          · intro h; exact absurd h hst
          · intro h; exact absurd h hno
          · intro _ _ h3; exact absurd hfl h3
        · refine ⟨{ status := b.close_status, bytes_moved := 0, sync := sync0, flags := if FSAL_IS_ERROR b.close_status then st.flags else FSAL_O_CLOSED, fd_count := st.fd_count, calls := st.calls ++ [backend_call.call_read] ++ [backend_call.call_close] }, ?_, rfl, ?_, ?_, ?_⟩
          · simp [fsal_rdwr, hloop, rdwr_sync1, FSAL_IS_ERROR, herr, hst, hno, hfl]
          · intro h; exact absurd h hst
          · intro h; exact absurd h hno
          · intro _ _ _; exact ⟨rfl, by simp [rdwr_io_calls]⟩
  case FSAL_IO_READ_PLUS =>
    simp only [rdwr_io_status] at herr ⊢
    by_cases hst : b.read_status.major = fsal_errors.ERR_FSAL_STALE
    · refine ⟨{ status := b.read_status, bytes_moved := 0, sync := sync0, flags := st.flags, fd_count := st.fd_count, calls := st.calls ++ [backend_call.call_read_plus] }, ?_, rfl, ?_, ?_, ?_⟩
      · simp [fsal_rdwr, hloop, rdwr_sync1, FSAL_IS_ERROR, herr, hst]
      · intro _; exact ⟨rfl, rfl⟩
      · intro h; rw [hst] at h; cases h
      · intro h1 _; exact absurd hst h1
    · by_cases hno : b.read_status.major = fsal_errors.ERR_FSAL_NOT_OPENED
      · refine ⟨{ status := b.read_status, bytes_moved := 0, sync := sync0, flags := st.flags, fd_count := st.fd_count, calls := st.calls ++ [backend_call.call_read_plus] }, ?_, rfl, ?_, ?_, ?_⟩
        · simp [fsal_rdwr, hloop, rdwr_sync1, FSAL_IS_ERROR, herr, hst, hno]
        · intro h; exact absurd h hst
        · intro _; exact ⟨rfl, rfl⟩
        · intro _ h2; exact absurd hno h2
      · by_cases hfl : st.flags = FSAL_O_CLOSED
        · refine ⟨{ status := b.read_status, bytes_moved := 0, sync := sync0, flags := st.flags, fd_count := st.fd_count, calls := st.calls ++ [backend_call.call_read_plus] }, ?_, rfl, ?_, ?_, ?_⟩
          · simp [fsal_rdwr, hloop, rdwr_sync1, FSAL_IS_ERROR, herr, hst, hno, hfl]
          · intro h; exact absurd h hst
          · intro h; exact absurd h hno
          · intro _ _ h3; exact absurd hfl h3
        · refine ⟨{ status := b.close_status, bytes_moved := 0, sync := sync0, flags := if FSAL_IS_ERROR b.close_status then st.flags else FSAL_O_CLOSED, fd_count := st.fd_count, calls := st.calls ++ [backend_call.call_read_plus] ++ [backend_call.call_close] }, ?_, rfl, ?_, ?_, ?_⟩
          · simp [fsal_rdwr, hloop, rdwr_sync1, FSAL_IS_ERROR, herr, hst, hno, hfl]
          · intro h; exact absurd h hst
          · intro h; exact absurd h hno
          · intro _ _ _; exact ⟨rfl, by simp [rdwr_io_calls]⟩
  case FSAL_IO_WRITE =>
    simp only [rdwr_io_status] at herr ⊢
    by_cases hst : b.write_status.major = fsal_errors.ERR_FSAL_STALE
    · refine ⟨{ status := b.write_status, bytes_moved := 0, sync := b.write_stable, flags := st.flags, fd_count := st.fd_count, calls := st.calls ++ [backend_call.call_write] }, ?_, rfl, ?_, ?_, ?_⟩
      · simp [fsal_rdwr, hloop, rdwr_sync1, FSAL_IS_ERROR, herr, hst]
      · intro _; exact ⟨rfl, rfl⟩
      · intro h; rw [hst] at h; cases h
      · intro h1 _; exact absurd hst h1
    · by_cases hno : b.write_status.major = fsal_errors.ERR_FSAL_NOT_OPENED
      · refine ⟨{ status := b.write_status, bytes_moved := 0, sync := b.write_stable, flags := st.flags, fd_count := st.fd_count, calls := st.calls ++ [backend_call.call_write] }, ?_, rfl, ?_, ?_, ?_⟩
        · simp [fsal_rdwr, hloop, rdwr_sync1, FSAL_IS_ERROR, herr, hst, hno]
        · intro h; exact absurd h hst
        · intro _; exact ⟨rfl, rfl⟩
        · intro _ h2; exact absurd hno h2
      · by_cases hfl : st.flags = FSAL_O_CLOSED
        · refine ⟨{ status := b.write_status, bytes_moved := 0, sync := b.write_stable, flags := st.flags, fd_count := st.fd_count, calls := st.calls ++ [backend_call.call_write] }, ?_, rfl, ?_, ?_, ?_⟩
          · simp [fsal_rdwr, hloop, rdwr_sync1, FSAL_IS_ERROR, herr, hst, hno, hfl]
          · intro h; exact absurd h hst
          · intro h; exact absurd h hno
          · intro _ _ h3; exact absurd hfl h3
        · refine ⟨{ status := b.close_status, bytes_moved := 0, sync := b.write_stable, flags := if FSAL_IS_ERROR b.close_status then st.flags else FSAL_O_CLOSED, fd_count := st.fd_count, calls := st.calls ++ [backend_call.call_write] ++ [backend_call.call_close] }, ?_, rfl, ?_, ?_, ?_⟩
          · simp [fsal_rdwr, hloop, rdwr_sync1, FSAL_IS_ERROR, herr, hst, hno, hfl]
          · intro h; exact absurd h hst
          · intro h; exact absurd h hno
          · intro _ _ _; exact ⟨rfl, by simp [rdwr_io_calls]⟩
  case FSAL_IO_WRITE_PLUS =>
    simp only [rdwr_io_status] at herr ⊢
    by_cases hst : b.write_status.major = fsal_errors.ERR_FSAL_STALE
    · refine ⟨{ status := b.write_status, bytes_moved := 0, sync := b.write_stable, flags := st.flags, fd_count := st.fd_count, calls := st.calls ++ [backend_call.call_write_plus] }, ?_, rfl, ?_, ?_, ?_⟩
      · simp [fsal_rdwr, hloop, rdwr_sync1, FSAL_IS_ERROR, herr, hst]
      · intro _; exact ⟨rfl, rfl⟩
      · intro h; rw [hst] at h; cases h
      · intro h1 _; exact absurd hst h1
    · by_cases hno : b.write_status.major = fsal_errors.ERR_FSAL_NOT_OPENED
      · refine ⟨{ status := b.write_status, bytes_moved := 0, sync := b.write_stable, flags := st.flags, fd_count := st.fd_count, calls := st.calls ++ [backend_call.call_write_plus] }, ?_, rfl, ?_, ?_, ?_⟩
        · simp [fsal_rdwr, hloop, rdwr_sync1, FSAL_IS_ERROR, herr, hst, hno]
        · intro h; exact absurd h hst
        · intro _; exact ⟨rfl, rfl⟩
        · intro _ h2; exact absurd hno h2
      · by_cases hfl : st.flags = FSAL_O_CLOSED
        · refine ⟨{ status := b.write_status, bytes_moved := 0, sync := b.write_stable, flags := st.flags, fd_count := st.fd_count, calls := st.calls ++ [backend_call.call_write_plus] }, ?_, rfl, ?_, ?_, ?_⟩
          · simp [fsal_rdwr, hloop, rdwr_sync1, FSAL_IS_ERROR, herr, hst, hno, hfl]
          · intro h; exact absurd h hst
          · intro h; exact absurd h hno
          · intro _ _ h3; exact absurd hfl h3
        · refine ⟨{ status := b.close_status, bytes_moved := 0, sync := b.write_stable, flags := if FSAL_IS_ERROR b.close_status then st.flags else FSAL_O_CLOSED, fd_count := st.fd_count, calls := st.calls ++ [backend_call.call_write_plus] ++ [backend_call.call_close] }, ?_, rfl, ?_, ?_, ?_⟩
          · simp [fsal_rdwr, hloop, rdwr_sync1, FSAL_IS_ERROR, herr, hst, hno, hfl]
          · intro h; exact absurd h hst
          · intro h; exact absurd h hno
          · intro _ _ _; exact ⟨rfl, by simp [rdwr_io_calls]⟩

/-- The loop state the C6 witness's open-satisfaction loop ends in: the
handle was already open read-only, so the loop is a no-op. -/
def c6_witness_state : rdwr_loop_state :=
  { flags := FSAL_O_READ, fd_count := 5, opened := false,
    loflags := FSAL_O_READ, calls := [] }

/-- Witness for C6 (amended): a concrete read on a handle open read-only
(not read/write) failing with a plain I/O error; the close is invoked and
its success status is what the call returns. -/
theorem C6_rdwr_error_close_amended_witness :
    ∃ res, fsal_rdwr object_file_type.REGULAR_FILE FSAL_O_READ 5 false false
        c6_backend_ioerr io_direction.FSAL_IO_READ false 7 2 = some res ∧
      res.bytes_moved = 0 ∧
      ((fsalstat fsal_errors.ERR_FSAL_IO 0).major =
          fsal_errors.ERR_FSAL_STALE →
        res.status = fsalstat fsal_errors.ERR_FSAL_IO 0 ∧
          res.calls = c6_witness_state.calls ++
            rdwr_io_calls io_direction.FSAL_IO_READ) ∧
      ((fsalstat fsal_errors.ERR_FSAL_IO 0).major =
          fsal_errors.ERR_FSAL_NOT_OPENED →
        res.status = fsalstat fsal_errors.ERR_FSAL_IO 0 ∧
          res.calls = c6_witness_state.calls ++
            rdwr_io_calls io_direction.FSAL_IO_READ) ∧
      (¬ (fsalstat fsal_errors.ERR_FSAL_IO 0).major =
          fsal_errors.ERR_FSAL_STALE →
        ¬ (fsalstat fsal_errors.ERR_FSAL_IO 0).major =
          fsal_errors.ERR_FSAL_NOT_OPENED →
        c6_witness_state.flags ≠ FSAL_O_CLOSED →
        res.status = c6_backend_ioerr.close_status ∧
          res.calls = c6_witness_state.calls ++
            rdwr_io_calls io_direction.FSAL_IO_READ ++
            [backend_call.call_close]) :=
  C6_rdwr_error_close_amended FSAL_O_READ 5 false false c6_backend_ioerr
    io_direction.FSAL_IO_READ false 7 2 c6_witness_state
    (fsalstat fsal_errors.ERR_FSAL_IO 0) (by decide) rfl (by decide)

/-- Backend responses consumed by one `fsal_setattr` call: the export's
cansettime capability, the attribute-refresh getattrs, the backend
setattrs, and the post-commit getattrs (whose attrs include the backend's
new change counter). -/
structure setattr_env where
  cansettime : Bool
  refresh_status : fsal_status
  refresh_attrs : attrs_m
  setattrs_status : fsal_status
  getattrs2_status : fsal_status
  getattrs2_attrs : attrs_m
deriving DecidableEq, Repr

/-- Result of `fsal_setattr`: status and the object's attributes after the
call (also copied back to the caller's attribute list on success). -/
structure setattr_result where
  status : fsal_status
  attrs : attrs_m
  attr_out : setattr_request
deriving DecidableEq, Repr

/-- `S_ISUID`. -/
def S_ISUID : Nat := 2048

/-- `S_ISGID`. -/
def S_ISGID : Nat := 1024

/-- `S_IXUSR`. -/
def S_IXUSR : Nat := 64

/-- `S_IXGRP`. -/
def S_IXGRP : Nat := 8

/-- `S_IXOTH`. -/
def S_IXOTH : Nat := 1

/-- Clear a single (power-of-two) mode bit: `m & ~bit`. -/
def clear_bit (m bit : Nat) : Nat := m - (m &&& bit)

/-- `fsal_setattr` from `fsal_helper.c` (lines 318-441): reject truncation
of non-regular files; reject timestamp changes when the export cannot set
times; refresh attributes (releasing the old ACL); check permissions with
`fsal_check_setattr_perms`; apply the POSIX chown/chmod setuid/setgid
clearing rules; record the change counter, delegate setattrs and re-fetch
attributes; if the backend did not move the change counter, increment it. -/
def fsal_setattr (ty : object_file_type) (creds : user_cred)
    (attr : setattr_request) (obj0 : attrs_m) (env : setattr_env)
    (test_access : access_request → fsal_status) : setattr_result :=
  if (attr.set_size ∨ attr.set_space_reserved) ∧
      ty ≠ object_file_type.REGULAR_FILE then
    { status := fsalstat fsal_errors.ERR_FSAL_BADTYPE 0, attrs := obj0,
      attr_out := attr }
  else if ¬ env.cansettime ∧ (attr.set_atime ∨ attr.set_creation ∨
      attr.set_ctime ∨ attr.set_mtime) then
    { status := fsalstat fsal_errors.ERR_FSAL_INVAL 0, attrs := obj0,
      attr_out := attr }
  else
    let obj1 : attrs_m := { obj0 with acl := false }
    if FSAL_IS_ERROR env.refresh_status then
      { status := env.refresh_status, attrs := obj1, attr_out := attr }
    else
      let obj2 := env.refresh_attrs
      let pst := fsal_check_setattr_perms creds obj2 attr test_access
      if FSAL_IS_ERROR pst then
        { status := pst, attrs := obj2, attr_out := attr }
      else
        let attr1 :=
          if creds.caller_uid ≠ 0 ∧ (attr.set_owner ∨ attr.set_group) ∧
              (obj2.mode &&& (S_IXOTH + S_IXUSR + S_IXGRP)) ≠ 0 ∧
              (obj2.mode &&& (S_ISUID + S_ISGID)) ≠ 0 then
            let a0 := if ¬ attr.set_mode
              then { attr with mode := obj2.mode, set_mode := true }
              else attr
            let a1 := if (obj2.mode &&& S_IXGRP) ≠ 0
              then { a0 with mode := clear_bit a0.mode S_ISGID }
              else a0
            { a1 with mode := clear_bit a1.mode S_ISUID }
          else attr
        let attr2 :=
          if creds.caller_uid ≠ 0 ∧ attr1.set_mode ∧
              (attr1.mode &&& S_ISGID) ≠ 0 ∧
              fsal_not_in_group_list creds obj2.group then
            { attr1 with mode := clear_bit attr1.mode S_ISGID }
          else attr1
        let before := obj2.change
        if FSAL_IS_ERROR env.setattrs_status then
          { status := env.setattrs_status, attrs := obj2, attr_out := attr2 }
        else if FSAL_IS_ERROR env.getattrs2_status then
          { status := env.getattrs2_status, attrs := obj2, attr_out := attr2 }
        else
          let obj3 := env.getattrs2_attrs
          let obj4 := if before = obj3.change
            then { obj3 with change := obj3.change + 1 } else obj3
          { status := fsalstat fsal_errors.ERR_FSAL_NO_ERROR 0,
            attrs := obj4, attr_out := attr2 }

set_option maxHeartbeats 2000000 in
/-- C7: for every `fsal_setattr` call that returns success, provided the
backend does not move the change counter backwards, the change counter
observed after the call is strictly greater than its value before the
backend commit (the refreshed value): if the backend left it unchanged the
helper increments it itself. -/
theorem C7_setattr_change_monotonic (ty : object_file_type)
    (creds : user_cred) (attr : setattr_request) (obj0 : attrs_m)
    (env : setattr_env) (test_access : access_request → fsal_status)
    (hok : (fsal_setattr ty creds attr obj0 env test_access).status.major =
      fsal_errors.ERR_FSAL_NO_ERROR)
    (hmono : env.refresh_attrs.change ≤ env.getattrs2_attrs.change) :
    env.refresh_attrs.change <
      (fsal_setattr ty creds attr obj0 env test_access).attrs.change := by
  by_cases h1 : (attr.set_size = true ∨ attr.set_space_reserved = true) ∧
      ty ≠ object_file_type.REGULAR_FILE
  · simp [fsal_setattr, h1, fsalstat] at hok
  by_cases h2 : env.cansettime = false ∧ (attr.set_atime = true ∨
      attr.set_creation = true ∨ attr.set_ctime = true ∨
      attr.set_mtime = true)
  · simp [fsal_setattr, h1, h2, fsalstat] at hok
  by_cases h3 : FSAL_IS_ERROR env.refresh_status = true
  · simp [fsal_setattr, h1, h2, h3, fsalstat] at hok
    exact absurd hok (by simpa [FSAL_IS_ERROR] using h3)
  by_cases h4 : FSAL_IS_ERROR
      (fsal_check_setattr_perms creds env.refresh_attrs attr
        test_access) = true
  · simp [fsal_setattr, h1, h2, h3, h4, fsalstat] at hok
    exact absurd hok (by simpa [FSAL_IS_ERROR] using h4)
  by_cases h5 : FSAL_IS_ERROR env.setattrs_status = true
  · simp [fsal_setattr, h1, h2, h3, h4, h5, fsalstat] at hok
    exact absurd hok (by simpa [FSAL_IS_ERROR] using h5)
  by_cases h6 : FSAL_IS_ERROR env.getattrs2_status = true
  · simp [fsal_setattr, h1, h2, h3, h4, h5, h6, fsalstat] at hok
    exact absurd hok (by simpa [FSAL_IS_ERROR] using h6)
  by_cases h7 : env.refresh_attrs.change = env.getattrs2_attrs.change
  · simp [fsal_setattr, h1, h2, h3, h4, h5, h6, h7]
  · simp [fsal_setattr, h1, h2, h3, h4, h5, h6, h7]
    omega

/-- The concrete setattr request used by the C7 witness: a plain chmod. -/
def c7_witness_attr : setattr_request :=
  { set_owner := false, set_group := false, set_mode := true,
    set_acl := false, set_size := false, set_space_reserved := false,
    set_atime := false, set_mtime := false, set_ctime := false,
    set_creation := false, set_atime_server := false,
    set_mtime_server := false, owner := 0, group := 0, mode := 420 }

/-- The concrete backend-response record used by the C7 witness: every
step succeeds and the backend leaves the change counter at 10. -/
def c7_witness_env : setattr_env :=
  { cansettime := true,
    refresh_status := fsalstat fsal_errors.ERR_FSAL_NO_ERROR 0,
    refresh_attrs := { owner := 0, group := 0, mode := 420, change := 10,
                       acl := false },
    setattrs_status := fsalstat fsal_errors.ERR_FSAL_NO_ERROR 0,
    getattrs2_status := fsalstat fsal_errors.ERR_FSAL_NO_ERROR 0,
    getattrs2_attrs := { owner := 0, group := 0, mode := 420, change := 10,
                         acl := false } }

/-- Witness for C7: a successful root chmod where the backend does not
advance the change counter; the observed counter still increases. -/
theorem C7_setattr_change_monotonic_witness :
    c7_witness_env.refresh_attrs.change <
      (fsal_setattr object_file_type.REGULAR_FILE
        { caller_uid := 0, caller_gid := 0, caller_garray := [] }
        c7_witness_attr
        { owner := 0, group := 0, mode := 420, change := 3, acl := false }
        c7_witness_env
        (fun _ => fsalstat fsal_errors.ERR_FSAL_NO_ERROR 0)).attrs.change :=
  C7_setattr_change_monotonic object_file_type.REGULAR_FILE
    { caller_uid := 0, caller_gid := 0, caller_garray := [] }
    c7_witness_attr
    { owner := 0, group := 0, mode := 420, change := 3, acl := false }
    c7_witness_env
    (fun _ => fsalstat fsal_errors.ERR_FSAL_NO_ERROR 0)
    (by decide) (by decide)
